import Mathlib

/-!
Verification development for the Prompt Forge request-forwarding application.

The definitions below are a shallow embedding of the repository's source:
the two revisions of the forwarding handler in
`src/my-app/src/app/api/prompt/route.ts`, the image-analysis handler in
`src/my-app/src/app/api/analyze-image/route.ts`, and the client controller
logic in `src/my-app/src/app/page.tsx` (URL building, pre-submit validation,
redacted-key logging, endpoint catalog).

JavaScript strings are modelled as `String`, records as structures, JSON
values as the inductive `Json` below, and the builtin `JSON.parse` as the
executable fueled parser `jsonParse`.  Stateful handler code is split into a
pure "prepare" phase (incoming payload to either an early response or an
outbound fetch specification) and a pure "finish" phase (outbound fetch
outcome to the final response), with the ambient clock (`Date.now()`
durations) passed in explicitly.
-/

namespace PromptForge

/-- JSON values.  Numbers are kept in exact decimal scientific form
`mant * 10 ^ exp` (JavaScript number semantics beyond exact decimals is not
needed by any portion of the code under study).  Objects are association
lists in first-occurrence key order, with later duplicate keys overwriting
earlier values exactly as `JSON.parse` does. -/
inductive Json where
  | null : Json
  | bool (b : Bool) : Json
  | num (mant exp : Int) : Json
  | str (s : String) : Json
  | arr (elems : List Json) : Json
  | obj (members : List (String × Json)) : Json

/-- JSON whitespace characters. -/
def isJsonWs (c : Char) : Bool :=
  c = ' ' || c = '\t' || c = '\n' || c = '\r'

/-- Drop leading JSON whitespace. -/
def skipWs : List Char → List Char
  | [] => []
  | c :: cs => if isJsonWs c then skipWs cs else c :: cs

/-- Value of a hexadecimal digit, if the character is one. -/
def hexVal (c : Char) : Option Nat :=
  if '0' ≤ c ∧ c ≤ '9' then some (c.toNat - '0'.toNat)
  else if 'a' ≤ c ∧ c ≤ 'f' then some (c.toNat - 'a'.toNat + 10)
  else if 'A' ≤ c ∧ c ≤ 'F' then some (c.toNat - 'A'.toNat + 10)
  else none

/-- Span of leading decimal digits. -/
def spanDigits : List Char → List Char × List Char
  | [] => ([], [])
  | c :: cs =>
    if c.isDigit then
      let p := spanDigits cs
      (c :: p.1, p.2)
    else ([], c :: cs)

/-- Numeric value of a digit list. -/
def digitsToNat (ds : List Char) : Nat :=
  ds.foldl (fun a c => a * 10 + (c.toNat - '0'.toNat)) 0

/-- Body of a JSON string literal, positioned just after the opening quote:
returns the decoded characters and the remainder after the closing quote.
Escapes and the control-character restriction follow the JSON grammar
implemented by `JSON.parse`. -/
def parseStringBody : Nat → List Char → Option (List Char × List Char)
  | 0, _ => none
  | _, [] => none
  | Nat.succ fuel, c :: cs =>
    if c = '"' then some ([], cs)
    else if c = '\\' then
      match cs with
      | [] => none
      | e :: cs2 =>
        let esc : Option (Char × List Char) :=
          if e = '"' then some ('"', cs2)
          else if e = '\\' then some ('\\', cs2)
          else if e = '/' then some ('/', cs2)
          else if e = 'b' then some (Char.ofNat 8, cs2)
          else if e = 'f' then some (Char.ofNat 12, cs2)
          else if e = 'n' then some ('\n', cs2)
          else if e = 'r' then some ('\r', cs2)
          else if e = 't' then some ('\t', cs2)
          else if e = 'u' then
            match cs2 with
            | h1 :: h2 :: h3 :: h4 :: cs3 =>
              match hexVal h1, hexVal h2, hexVal h3, hexVal h4 with
              | some a, some b, some c2, some d =>
                some (Char.ofNat (((a * 16 + b) * 16 + c2) * 16 + d), cs3)
              | _, _, _, _ => none
            | _ => none
          else none
        match esc with
        | none => none
        | some (ch, rest) =>
          match parseStringBody fuel rest with
          | none => none
          | some (s, r) => some (ch :: s, r)
    else if c.toNat < 32 then none
    else
      match parseStringBody fuel cs with
      | none => none
      | some (s, r) => some (c :: s, r)

/-- Exponent digits of a JSON number, combined with the sign and the
fractional shift accumulated so far. -/
def parseExpDigits (neg : Bool) (mant : Nat) (exp0 : Int) (expNeg : Bool)
    (input : List Char) : Option (Json × List Char) :=
  match spanDigits input with
  | ([], _) => none
  | (es, r) =>
    let ev : Int := (digitsToNat es : Int)
    let e : Int := exp0 + (if expNeg then -ev else ev)
    some (Json.num (if neg then -(mant : Int) else (mant : Int)) e, r)

/-- Optional exponent part of a JSON number. -/
def parseNumberExp (neg : Bool) (mant : Nat) (exp0 : Int)
    (input : List Char) : Option (Json × List Char) :=
  match input with
  | 'e' :: '+' :: cs => parseExpDigits neg mant exp0 false cs
  | 'e' :: '-' :: cs => parseExpDigits neg mant exp0 true cs
  | 'e' :: cs => parseExpDigits neg mant exp0 false cs
  | 'E' :: '+' :: cs => parseExpDigits neg mant exp0 false cs
  | 'E' :: '-' :: cs => parseExpDigits neg mant exp0 true cs
  | 'E' :: cs => parseExpDigits neg mant exp0 false cs
  | _ => some (Json.num (if neg then -(mant : Int) else (mant : Int)) exp0, input)

/-- Optional fraction part of a JSON number. -/
def parseNumberFrac (neg : Bool) (intPart : Nat)
    (input : List Char) : Option (Json × List Char) :=
  match input with
  | '.' :: cs =>
    match spanDigits cs with
    | ([], _) => none
    | (fs, r) =>
      parseNumberExp neg (intPart * 10 ^ fs.length + digitsToNat fs)
        (-(fs.length : Int)) r
  | _ => parseNumberExp neg intPart 0 input

/-- A JSON number starting at the head of the input (sign included).
Leading zeros are excluded by the grammar: the integer part is either the
single digit `0` or starts with a nonzero digit. -/
def parseNumber (input : List Char) : Option (Json × List Char) :=
  let signed : Bool × List Char :=
    match input with
    | '-' :: cs => (true, cs)
    | cs => (false, cs)
  match signed.2 with
  | [] => none
  | c :: cs =>
    if c = '0' then parseNumberFrac signed.1 0 cs
    else if c.isDigit then
      let p := spanDigits cs
      parseNumberFrac signed.1 (digitsToNat (c :: p.1)) p.2
    else none

/-- Insert a key into an object association list the way JavaScript object
construction does: an existing key keeps its position but takes the new
value, a new key is appended. -/
def setKey : List (String × Json) → String → Json → List (String × Json)
  | [], k, v => [(k, v)]
  | (k0, v0) :: rest, k, v =>
    if k0 = k then (k0, v) :: rest else (k0, v0) :: setKey rest k v

mutual

/-- A JSON value, leading whitespace allowed, recursion bounded by fuel. -/
def parseValue : Nat → List Char → Option (Json × List Char)
  | 0, _ => none
  | Nat.succ fuel, input =>
    match skipWs input with
    | [] => none
    | 'n' :: 'u' :: 'l' :: 'l' :: r => some (Json.null, r)
    | 't' :: 'r' :: 'u' :: 'e' :: r => some (Json.bool true, r)
    | 'f' :: 'a' :: 'l' :: 's' :: 'e' :: r => some (Json.bool false, r)
    | '"' :: cs =>
      match parseStringBody (cs.length + 1) cs with
      | none => none
      | some (s, r) => some (Json.str (String.mk s), r)
    | '[' :: cs => parseArrBody fuel cs
    | '\x7b' :: cs => parseObjBody fuel cs
    | c :: cs =>
      if c = '-' || c.isDigit then parseNumber (c :: cs) else none

/-- Array contents just after the opening bracket. -/
def parseArrBody : Nat → List Char → Option (Json × List Char)
  | 0, _ => none
  | Nat.succ fuel, input =>
    match skipWs input with
    | ']' :: r => some (Json.arr [], r)
    | inp => parseElemsLoop fuel inp []

/-- Comma-separated array elements. -/
def parseElemsLoop : Nat → List Char → List Json → Option (Json × List Char)
  | 0, _, _ => none
  | Nat.succ fuel, input, acc =>
    match parseValue fuel input with
    | none => none
    | some (v, rest) =>
      match skipWs rest with
      | ',' :: r2 => parseElemsLoop fuel r2 (acc ++ [v])
      | ']' :: r2 => some (Json.arr (acc ++ [v]), r2)
      | _ => none

/-- Object contents just after the opening brace. -/
def parseObjBody : Nat → List Char → Option (Json × List Char)
  | 0, _ => none
  | Nat.succ fuel, input =>
    match skipWs input with
    | '\x7d' :: r => some (Json.obj [], r)
    | inp => parseMembersLoop fuel inp []

/-- Comma-separated object members. -/
def parseMembersLoop : Nat → List Char → List (String × Json) →
    Option (Json × List Char)
  | 0, _, _ => none
  | Nat.succ fuel, input, acc =>
    match skipWs input with
    | '"' :: cs =>
      match parseStringBody (cs.length + 1) cs with
      | none => none
      | some (key, rest1) =>
        match skipWs rest1 with
        | ':' :: rest2 =>
          match parseValue fuel rest2 with
          | none => none
          | some (v, rest3) =>
            match skipWs rest3 with
            | ',' :: rest4 => parseMembersLoop fuel rest4 (setKey acc (String.mk key) v)
            | '\x7d' :: rest4 => some (Json.obj (setKey acc (String.mk key) v), rest4)
            | _ => none
        | _ => none
    | _ => none

end

/-- Model of JavaScript `JSON.parse`: `some` the parsed value on valid JSON
text, `none` when `JSON.parse` would throw.  The fuel `4 * (length + 1)`
dominates the recursion depth, which grows by at most three per consumed
character. -/
def jsonParse (s : String) : Option Json :=
  match parseValue (4 * (s.length + 1)) s.data with
  | none => none
  | some (v, rest) => if skipWs rest = [] then some v else none

/-- Result normalization shared by both forwarder revisions: read the
upstream response body as text, attempt a JSON parse, fall back to the raw
text on parse failure (`route.ts`, both revisions). -/
def normalizeResponseText (t : String) : Json :=
  match jsonParse t with
  | some v => v
  | none => Json.str t

/-- An HTTP response produced by a handler: outer status code plus the JSON
body passed to `NextResponse.json`. -/
structure OuterResponse where
  status : Nat
  body : Json

/-- First phase of a handler: either an early response (no outbound network
call is performed) or the specification of the outbound fetch. -/
inductive PrepareResult (α : Type) where
  | respond (r : OuterResponse)
  | fetch (spec : α)

/-- Outcome of the outbound `fetch`: either the call threw (carrying
`error.message` when the thrown value was an `Error`, `none` otherwise), or
it completed with an upstream status, status text, response headers, and a
response body text. -/
inductive FetchOutcome where
  | threw (msg : Option String)
  | completed (status : Nat) (statusText : String)
      (headers : List (String × String)) (text : String)

/-- JavaScript `Response.ok`: status in the inclusive range 200–299. -/
def responseOk (status : Nat) : Bool :=
  200 ≤ status && status ≤ 299

/-- Headers set on every outgoing forwarded call. -/
def outgoingHeaders (apiKey : String) : List (String × String) :=
  [("Content-Type", "application/json"),
   ("Authorization", "Bearer " ++ apiKey)]

/-- Response headers collected into a flat JSON mapping. -/
def headersToJson (hs : List (String × String)) : Json :=
  Json.obj (hs.map (fun kv => (kv.1, Json.str kv.2)))

/-- The `meta` object of the targetUrl+method proxy revision. -/
def metaJson (status : Nat) (statusText : String) (duration : Nat)
    (hdrs : List (String × String)) : Json :=
  Json.obj [("status", Json.num status 0),
            ("statusText", Json.str statusText),
            ("duration", Json.num duration 0),
            ("responseHeaders", headersToJson hdrs)]

/-- The `meta` object of the apiUrl+body revision, which additionally
carries `sentBody`. -/
def metaJsonSent (status : Nat) (statusText : String) (duration : Nat)
    (hdrs : List (String × String)) (sentBody : Json) : Json :=
  Json.obj [("status", Json.num status 0),
            ("statusText", Json.str statusText),
            ("duration", Json.num duration 0),
            ("responseHeaders", headersToJson hdrs),
            ("sentBody", sentBody)]

/-- The thrown-error message surfaced by both revisions:
`error instanceof Error ? error.message : 'Failed to reach the API'`. -/
def thrownMessage (msg : Option String) : String :=
  msg.getD "Failed to reach the API"

/-! ### TargetUrl+method proxy revision of `api/prompt/route.ts` -/

/-- Incoming payload shape of the proxy revision (`ProxyRequest`).  A field
missing at runtime is modelled by the falsy value of its type: `""` for the
strings, `none` for the optional body. -/
structure ProxyRequest where
  targetUrl : String
  apiKey : String
  method : String
  body : Option String

/-- Outbound fetch specification built by the proxy revision. -/
structure FetchSpec where
  url : String
  method : String
  headers : List (String × String)
  body : Option String

/-- The body attachment rule of the proxy revision:
`if (body && (method === 'POST' || method === 'PUT')) fetchOptions.body = body`.
JavaScript truthiness of a string is nonemptiness. -/
def attachBody (method : String) (body : Option String) : Option String :=
  match body with
  | none => none
  | some s =>
    if s != "" && (method == "POST" || method == "PUT") then some s else none

/-- First phase of the proxy revision: payload parse failure (`none`) and
missing required fields produce early 400 responses; otherwise the outbound
fetch is specified. -/
def proxyPrepare (payload : Option ProxyRequest) : PrepareResult FetchSpec :=
  match payload with
  | none => .respond ⟨400, Json.obj [("error", Json.str "Invalid JSON")]⟩
  | some p =>
    if p.targetUrl == "" || p.apiKey == "" || p.method == "" then
      .respond ⟨400, Json.obj [("error", Json.str "Missing required fields")]⟩
    else
      .fetch ⟨p.targetUrl, p.method, outgoingHeaders p.apiKey,
              attachBody p.method p.body⟩

/-- Second phase of the proxy revision: on completion the envelope is
returned through `NextResponse.json` with no status option, hence outer
status 200; on a thrown fetch the outer status is 502 with the network-error
meta. -/
def proxyFinish (outcome : FetchOutcome) (duration : Nat) : OuterResponse :=
  match outcome with
  | .completed st stx hdrs text =>
    ⟨200, Json.obj [("result", normalizeResponseText text),
                    ("meta", metaJson st stx duration hdrs)]⟩
  | .threw msg =>
    ⟨502, Json.obj [("error", Json.str (thrownMessage msg)),
                    ("meta", metaJson 0 "Network Error" duration [])]⟩

/-! ### ApiUrl+body revision of `api/prompt/route.ts` -/

/-- Incoming payload shape of the apiUrl+body revision (`PromptRequest`). -/
structure PromptRequest where
  apiUrl : String
  apiKey : String
  body : String

/-- Outbound fetch specification of the apiUrl+body revision: always POST,
the outgoing body is `JSON.stringify` of the parsed body, modelled by the
parsed JSON value itself. -/
structure PromptFetchSpec where
  url : String
  headers : List (String × String)
  sentBody : Json

/-- First phase of the apiUrl+body revision: parse failure of the incoming
payload, missing required fields, and a `body` string that is not valid JSON
each produce early 400 responses. -/
def promptPrepare (payload : Option PromptRequest) :
    PrepareResult PromptFetchSpec :=
  match payload with
  | none => .respond ⟨400, Json.obj [("error", Json.str "Invalid JSON")]⟩
  | some p =>
    if p.apiUrl == "" || p.apiKey == "" || p.body == "" then
      .respond ⟨400, Json.obj [("error", Json.str "Missing required fields")]⟩
    else
      match jsonParse p.body with
      | none =>
        .respond ⟨400, Json.obj [("error", Json.str "Request body is not valid JSON")]⟩
      | some parsed => .fetch ⟨p.apiUrl, outgoingHeaders p.apiKey, parsed⟩

/-- Second phase of the apiUrl+body revision: on completion the outer status
is `response.ok ? 200 : response.status`; on a thrown fetch it is 502.  The
`meta` object carries `sentBody` in both cases. -/
def promptFinish (sentBody : Json) (outcome : FetchOutcome)
    (duration : Nat) : OuterResponse :=
  match outcome with
  | .completed st stx hdrs text =>
    ⟨if responseOk st then 200 else st,
     Json.obj [("result", normalizeResponseText text),
               ("meta", metaJsonSent st stx duration hdrs sentBody)]⟩
  | .threw msg =>
    ⟨502, Json.obj [("error", Json.str (thrownMessage msg)),
                    ("meta", metaJsonSent 0 "Network Error" duration [] sentBody)]⟩

/-! ### Image-analysis endpoint `api/analyze-image/route.ts` -/

/-- Outbound fetch of the image-analysis endpoint: fixed chat-completions
URL and the stringified payload, modelled as a JSON value. -/
structure AnalyzeFetchSpec where
  url : String
  body : Json

/-- The fixed chat-completion payload sent for an image: fixed model, the
fixed prompt text, the data URL of the submitted image, fixed token cap. -/
def analyzeUpstreamBody (image : String) : Json :=
  Json.obj
    [("model", Json.str "gpt-4o"),
     ("messages", Json.arr
       [Json.obj
         [("role", Json.str "user"),
          ("content", Json.arr
            [Json.obj [("type", Json.str "text"),
                       ("text", Json.str "What\x27s in this image?")],
             Json.obj [("type", Json.str "image_url"),
                       ("image_url", Json.obj
                         [("url", Json.str ("data:image/jpeg;base64," ++ image))])]])]]),
     ("max_tokens", Json.num 300 0)]

/-- First phase of the image-analysis endpoint.  The incoming value is
`none` when the request payload is not parseable JSON, otherwise the value
of its `image` field (`none` when absent).  A missing or falsy (empty)
image yields the 400 response; otherwise the upstream call is specified. -/
def analyzePrepare (incoming : Option (Option String)) :
    PrepareResult AnalyzeFetchSpec :=
  match incoming with
  | none =>
    .respond ⟨400, Json.obj [("error", Json.str "Invalid JSON in request body")]⟩
  | some img =>
    match img with
    | none =>
      .respond ⟨400, Json.obj [("error", Json.str "Invalid input: image data is required")]⟩
    | some s =>
      if s == "" then
        .respond ⟨400, Json.obj [("error", Json.str "Invalid input: image data is required")]⟩
      else
        .fetch ⟨"https://api.openai.com/v1/chat/completions", analyzeUpstreamBody s⟩

/-- Outcome of the image-analysis upstream call: a thrown fetch, or a
completed response with its status and the `content` strings of the parsed
body's `choices` (`none` when the body is not of the `OpenAIResponse`
shape, in which case reading it throws). -/
inductive AnalyzeOutcome where
  | threw
  | completed (status : Nat) (choices : Option (List String))

/-- The uniform 500 response of the image-analysis catch block. -/
def analyzeError : OuterResponse :=
  ⟨500, Json.obj [("error", Json.str "Failed to analyze image")]⟩

/-- Second phase of the image-analysis endpoint: a thrown fetch, a non-ok
upstream status (explicitly thrown), an unreadable body, and an empty
`choices` array (reading `choices[0].message` throws) all land in the catch
block's 500; otherwise the success shape echoes the submitted image with
the first choice's content as description. -/
def analyzeFinish (image : String) (outcome : AnalyzeOutcome) : OuterResponse :=
  match outcome with
  | .threw => analyzeError
  | .completed st choices =>
    if responseOk st then
      match choices with
      | some (c :: _) =>
        ⟨200, Json.obj
          [("message", Json.str "Image analyzed successfully"),
           ("analyzedImage", Json.obj [("image", Json.str image),
                                       ("description", Json.str c)])]⟩
      | _ => analyzeError
    else analyzeError

/-! ### Client controller `page.tsx` -/

/-- An entry of the client-side endpoint catalog. -/
structure Endpoint where
  id : String
  label : String
  method : String
  path : String
  descr : String
  hasPromptId : Bool
  hasBody : Bool
  defaultBody : Option String

/-- The static `ENDPOINTS` catalog of `page.tsx`, verbatim.  The
`defaultBody` strings are the `JSON.stringify(..., null, 2)` results the
source computes. -/
def ENDPOINTS : List Endpoint :=
  [⟨"compile-prompt", "Compile Prompt", "POST", "/api/v1/prompts/:id/compile",
    "Compile a prompt by substituting variables with provided values.",
    true, true, some "\x7b\n  \"variables\": \x7b\x7d\n\x7d"⟩,
   ⟨"list-prompts", "List Prompts", "GET", "/api/v1/prompts",
    "Retrieve all production prompts in your workspace.",
    false, false, none⟩,
   ⟨"get-prompt", "Get Prompt", "GET", "/api/v1/prompts/:id",
    "Retrieve a specific prompt by ID.",
    true, false, none⟩,
   ⟨"create-prompt", "Create Prompt", "POST", "/api/v1/prompts",
    "Create a new prompt with a name and description.",
    false, true,
    some "\x7b\n  \"name\": \"My Prompt\",\n  \"description\": \"A new prompt\"\n\x7d"⟩,
   ⟨"update-prompt", "Update Prompt", "PUT", "/api/v1/prompts/:id",
    "Update an existing prompt. Only include fields you want to change.",
    true, true, some "\x7b\n  \"description\": \"Updated description\"\n\x7d"⟩,
   ⟨"delete-prompt", "Delete Prompt", "DELETE", "/api/v1/prompts/:id",
    "Permanently delete a prompt. This cannot be undone.",
    true, false, none⟩,
   ⟨"prompt-parameters", "Prompt Parameters", "GET", "/api/v1/prompts/:id/parameters",
    "Returns the parameter schema for a prompt.",
    true, false, none⟩,
   ⟨"list-tools", "List Tools", "GET", "/api/v1/tools",
    "Retrieve all tool definitions in your workspace.",
    false, false, none⟩,
   ⟨"get-tool", "Get Tool", "GET", "/api/v1/tools/:id",
    "Retrieve a specific tool definition by ID.",
    true, false, none⟩]

/-- Catalog lookup by endpoint id. -/
def endpointById (eid : String) : Option Endpoint :=
  ENDPOINTS.find? (fun e => e.id == eid)

/-- The regex replacement `baseUrl.replace(/\/+$/, '')`: remove the
trailing run of slashes. -/
def stripTrailingSlashes (s : String) : String :=
  String.mk ((s.data.reverse.dropWhile (fun c => c = '/')).reverse)

/-- Replacement of the first occurrence of a nonempty pattern, as JavaScript
`String.prototype.replace` with a string pattern does; the input is returned
unchanged when the pattern does not occur. -/
def replaceFirstChars (pat rep : List Char) : List Char → List Char
  | [] => []
  | c :: cs =>
    if List.isPrefixOf pat (c :: cs) then rep ++ List.drop pat.length (c :: cs)
    else c :: replaceFirstChars pat rep cs

/-- String version of `replaceFirstChars`. -/
def replaceFirst (s pat rep : String) : String :=
  String.mk (replaceFirstChars pat.data rep.data s.data)

/-- `buildUrl` of `page.tsx`: strip trailing slashes from the base URL,
substitute `:id` in the selected endpoint's path when the endpoint requires
a resource id and the entered id is truthy (nonempty), and concatenate. -/
def buildUrl (baseUrl : String) (ep : Endpoint) (resourceId : String) : String :=
  let base := stripTrailingSlashes baseUrl
  let path :=
    if ep.hasPromptId && resourceId != "" then
      replaceFirst ep.path ":id" resourceId
    else ep.path
  base ++ path

/-- The pre-submit validation chain of `handleSubmit`, first failure wins:
base URL and key both present, then endpoint-required resource id, then
endpoint-required body. -/
def validateSubmit (baseUrl apiKey : String) (ep : Endpoint)
    (resourceId body : String) : Option String :=
  if baseUrl == "" || apiKey == "" then
    some "Please enter a Base URL and API Key"
  else if ep.hasPromptId && resourceId == "" then
    some "Please enter a resource ID"
  else if ep.hasBody && body == "" then
    some "Please enter a request body"
  else none

/-- Either an aborted submission carrying the single user-visible error
string (no network call is made), or the forwarded call. -/
inductive SubmitAction where
  | abort (err : String)
  | send (targetUrl : String) (method : String) (body : Option String)

/-- The submission decision of `handleSubmit`: validation first; on success
the forwarder is invoked with the built URL, the endpoint's method, and the
body only for body-bearing endpoints. -/
def handleSubmit (baseUrl apiKey : String) (ep : Endpoint)
    (resourceId body : String) : SubmitAction :=
  match validateSubmit baseUrl apiKey ep resourceId body with
  | some e => .abort e
  | none =>
    .send (buildUrl baseUrl ep resourceId) ep.method
      (if ep.hasBody then some body else none)

/-- JavaScript `s.slice(0, n)`: the first `n` characters. -/
def jsSliceTake (s : String) (n : Nat) : String :=
  String.mk (s.data.take n)

/-- JavaScript `s.slice(-n)`: the last `n` characters (the whole string
when it is shorter than `n`). -/
def jsSliceLast (s : String) (n : Nat) : String :=
  String.mk (s.data.drop (s.data.length - n))

/-- The redacted-key log line of `handleSubmit`:
`Authorization: Bearer ${apiKey.slice(0, 6)}...${apiKey.slice(-4)}`. -/
def redactedKeyLog (apiKey : String) : String :=
  "Authorization: Bearer " ++ jsSliceTake apiKey 6 ++ "..." ++ jsSliceLast apiKey 4

/-- Whether `sub` occurs contiguously inside the character list. -/
def hasSubstrChars (sub : List Char) : List Char → Bool
  | [] => sub.isEmpty
  | c :: cs => List.isPrefixOf sub (c :: cs) || hasSubstrChars sub cs

/-- Whether `sub` occurs as a contiguous substring of `s`. -/
def containsSubstring (s sub : String) : Bool :=
  hasSubstrChars sub.data s.data

/-- Whether a string ends in a slash. -/
def endsWithSlash (s : String) : Bool :=
  s.data.reverse.head? == some '/'

/-! ## Claims -/

/-- C1, counterexample.  The claim attributes the echoing of the upstream
status to the targetUrl+method proxy revision and the wrapping in outer 200
to the other revision.  At a completed upstream call with status 404, the
code does the opposite: the proxy revision returns outer 200 (not 404,
against the claimed echoing), and the apiUrl+body revision returns outer
404 (not 200, against the claimed wrapping). -/
theorem c1_outer_status_counterexample :
    (proxyFinish (FetchOutcome.completed 404 "Not Found" [] "oops") 7).status = 200
    ∧ (proxyFinish (FetchOutcome.completed 404 "Not Found" [] "oops") 7).status ≠ 404
    ∧ (promptFinish Json.null (FetchOutcome.completed 404 "Not Found" [] "oops") 7).status = 404
    ∧ (promptFinish Json.null (FetchOutcome.completed 404 "Not Found" [] "oops") 7).status ≠ 200 := by
  refine ⟨rfl, by decide, rfl, by decide⟩

/-- C1, amended.  Whenever the outbound network call completes, both
revisions return the success envelope `{result, meta}`; the targetUrl+method
proxy revision always uses outer HTTP status 200 regardless of the
upstream's own status, while the apiUrl+body revision echoes the upstream
status as the outer status when the upstream response is not ok (2xx) and
uses 200 when it is ok. -/
theorem c1_outer_status_amended :
    ∀ (st : Nat) (stx : String) (hdrs : List (String × String)) (text : String)
      (dur : Nat) (sentBody : Json),
      proxyFinish (FetchOutcome.completed st stx hdrs text) dur
        = ⟨200, Json.obj [("result", normalizeResponseText text),
                          ("meta", metaJson st stx dur hdrs)]⟩
      ∧ promptFinish sentBody (FetchOutcome.completed st stx hdrs text) dur
        = ⟨if responseOk st then 200 else st,
           Json.obj [("result", normalizeResponseText text),
                     ("meta", metaJsonSent st stx dur hdrs sentBody)]⟩ := by
  intro st stx hdrs text dur sentBody
  exact ⟨rfl, rfl⟩

/-- C3.  An incoming forwarder payload that is not parseable as JSON yields,
in both handler revisions, an early HTTP 400 response whose body carries an
`error` field, and no outbound fetch is specified (the result is `respond`,
not `fetch`). -/
theorem c3_malformed_incoming_json :
    proxyPrepare none
      = PrepareResult.respond ⟨400, Json.obj [("error", Json.str "Invalid JSON")]⟩
    ∧ promptPrepare none
      = PrepareResult.respond ⟨400, Json.obj [("error", Json.str "Invalid JSON")]⟩ := by
  exact ⟨rfl, rfl⟩

/-- C4.  Whenever the outbound fetch throws, both handler revisions return
outer HTTP status 502 with a body of shape `{error, meta}` in which
`meta.status` is 0, `meta.statusText` is "Network Error", and
`meta.responseHeaders` is the empty mapping. -/
theorem c4_network_error :
    ∀ (m : Option String) (dur : Nat) (sentBody : Json),
      proxyFinish (FetchOutcome.threw m) dur
        = ⟨502, Json.obj
            [("error", Json.str (thrownMessage m)),
             ("meta", Json.obj [("status", Json.num 0 0),
                                ("statusText", Json.str "Network Error"),
                                ("duration", Json.num dur 0),
                                ("responseHeaders", Json.obj [])])]⟩
      ∧ promptFinish sentBody (FetchOutcome.threw m) dur
        = ⟨502, Json.obj
            [("error", Json.str (thrownMessage m)),
             ("meta", Json.obj [("status", Json.num 0 0),
                                ("statusText", Json.str "Network Error"),
                                ("duration", Json.num dur 0),
                                ("responseHeaders", Json.obj []),
                                ("sentBody", sentBody)])]⟩ := by
  intro m dur sentBody
  exact ⟨rfl, rfl⟩

/-- C5.  Result normalization of the upstream response body, shared by both
revisions: when the response text parses as JSON the `result` is the parsed
value, otherwise the `result` is the raw response text; in particular the
body `{"a":1}` yields the object with `a` bound to 1, and the non-JSON body
"plain text" yields the string "plain text" itself. -/
theorem c5_result_normalization :
    (∀ (t : String) (v : Json), jsonParse t = some v → normalizeResponseText t = v)
    ∧ (∀ t : String, jsonParse t = none → normalizeResponseText t = Json.str t)
    ∧ normalizeResponseText "\x7b\"a\":1\x7d" = Json.obj [("a", Json.num 1 0)]
    ∧ normalizeResponseText "plain text" = Json.str "plain text" := by
  refine ⟨?_, ?_, rfl, rfl⟩
  · intro t v h
    simp [normalizeResponseText, h]
  · intro t h
    simp [normalizeResponseText, h]

/-- C5 witness: the first conjunct applied at the concrete response text
"1", which parses as the number 1. -/
theorem c5_result_normalization_witness :
    normalizeResponseText "1" = Json.num 1 0 :=
  c5_result_normalization.1 "1" (Json.num 1 0) rfl

/-- The proxy revision never attaches an outgoing body for GET or DELETE. -/
lemma attachBody_get_delete (method : String) (body : Option String)
    (h : method = "GET" ∨ method = "DELETE") : attachBody method body = none := by
  cases body with
  | none => rfl
  | some s =>
    rcases h with h | h <;> subst h <;>
      simp [attachBody, show (("GET" : String) == "POST" || ("GET" : String) == "PUT") = false from by decide,
            show (("DELETE" : String) == "POST" || ("DELETE" : String) == "PUT") = false from by decide]

/-- The proxy revision attaches a truthy body verbatim for POST and PUT. -/
lemma attachBody_post_put (method s : String)
    (h : method = "POST" ∨ method = "PUT") (hs : s ≠ "") :
    attachBody method (some s) = some s := by
  rcases h with h | h <;> subst h <;> simp [attachBody, hs]

/-- With all three required fields truthy, the proxy revision specifies the
outbound fetch built from the payload. -/
lemma proxyPrepare_valid (p : ProxyRequest) (hT : p.targetUrl ≠ "")
    (hK : p.apiKey ≠ "") (hM : p.method ≠ "") :
    proxyPrepare (some p)
      = PrepareResult.fetch
          ⟨p.targetUrl, p.method, outgoingHeaders p.apiKey,
           attachBody p.method p.body⟩ := by
  simp [proxyPrepare, hT, hK, hM]

/-- C2.  For a well-formed `ForwardRequest` handled by the proxy revision
(required fields present): with method GET or DELETE the outgoing fetch
carries no body even when a body string is supplied, and with method POST or
PUT and a supplied (truthy, hence nonempty — the data model's raw JSON
text) body string the outgoing body is exactly that string. -/
theorem c2_outgoing_body :
    ∀ p : ProxyRequest, p.targetUrl ≠ "" → p.apiKey ≠ "" →
      ((p.method = "GET" ∨ p.method = "DELETE") →
        proxyPrepare (some p)
          = PrepareResult.fetch ⟨p.targetUrl, p.method, outgoingHeaders p.apiKey, none⟩)
      ∧ (∀ s : String, (p.method = "POST" ∨ p.method = "PUT") →
          p.body = some s → s ≠ "" →
        proxyPrepare (some p)
          = PrepareResult.fetch ⟨p.targetUrl, p.method, outgoingHeaders p.apiKey, some s⟩) := by
  intro p hT hK
  constructor
  · intro hm
    have hM : p.method ≠ "" := by rcases hm with h | h <;> simp [h]
    rw [proxyPrepare_valid p hT hK hM, attachBody_get_delete p.method p.body hm]
  · intro s hm hb hs
    have hM : p.method ≠ "" := by rcases hm with h | h <;> simp [h]
    rw [proxyPrepare_valid p hT hK hM, hb, attachBody_post_put p.method s hm hs]

/-- C2 witness: a GET request with a supplied body goes out without one. -/
theorem c2_outgoing_body_witness :
    proxyPrepare (some ⟨"http://a", "k", "GET", some "x"⟩)
      = PrepareResult.fetch ⟨"http://a", "GET", outgoingHeaders "k", none⟩ :=
  (c2_outgoing_body ⟨"http://a", "k", "GET", some "x"⟩ (by decide) (by decide)).1
    (Or.inl rfl)

/-- Stripping the trailing run of slashes leaves a string that does not end
in a slash. -/
lemma endsWithSlash_strip (s : String) :
    endsWithSlash (stripTrailingSlashes s) = false := by
  show ((String.mk ((s.data.reverse.dropWhile (fun c => c = '/')).reverse)).data.reverse.head?
          == some '/') = false
  rw [show (String.mk ((s.data.reverse.dropWhile (fun c => c = '/')).reverse)).data
        = (s.data.reverse.dropWhile (fun c => c = '/')).reverse from rfl,
      List.reverse_reverse]
  have h := List.head?_dropWhile_not (fun c => decide (c = '/')) s.data.reverse
  cases hh : (s.data.reverse.dropWhile (fun c => decide (c = '/'))).head? with
  | none => simp [hh]
  | some x =>
    rw [hh] at h
    simp only [decide_eq_false_iff_not] at h
    simp [hh, h]

/-- C6.  URL construction: for every base URL, path template, and nonempty
resource id on an id-requiring endpoint, the built URL is the base with all
trailing slashes stripped, concatenated with the template in which the
first (hence, for the catalog's templates, the unique) `:id` placeholder is
replaced by the resource id; in particular the catalog's get-prompt
endpoint with base "https://x.com/" and id "p1" yields
"https://x.com/api/v1/prompts/p1". -/
theorem c6_build_url :
    (∀ (base rid : String) (ep : Endpoint), ep.hasPromptId = true → rid ≠ "" →
      buildUrl base ep rid
        = stripTrailingSlashes base ++ replaceFirst ep.path ":id" rid)
    ∧ (∀ base : String, endsWithSlash (stripTrailingSlashes base) = false)
    ∧ (endpointById "get-prompt").map (fun ep => buildUrl "https://x.com/" ep "p1")
        = some "https://x.com/api/v1/prompts/p1" := by
  refine ⟨?_, endsWithSlash_strip, rfl⟩
  intro base rid ep hp hr
  simp [buildUrl, hp, hr]

/-- C6 witness: the general conjunct applied to the catalog's get-prompt
endpoint at the spec's concrete example. -/
theorem c6_build_url_witness :
    buildUrl "https://x.com/" (ENDPOINTS.get ⟨2, by decide⟩) "p1"
      = stripTrailingSlashes "https://x.com/"
          ++ replaceFirst (ENDPOINTS.get ⟨2, by decide⟩).path ":id" "p1" :=
  c6_build_url.1 "https://x.com/" "p1" (ENDPOINTS.get ⟨2, by decide⟩) rfl (by decide)

/-- C7.  Pre-submit validation runs in the fixed order (1) base URL and API
key both present, (2) endpoint-required resource id present, (3)
endpoint-required body present; the first failing check aborts the
submission with its single error string and no network call, and when all
checks pass the forwarder is invoked. -/
theorem c7_validation_order :
    ∀ (baseUrl apiKey resourceId body : String) (ep : Endpoint),
      ((baseUrl = "" ∨ apiKey = "") →
        handleSubmit baseUrl apiKey ep resourceId body
          = SubmitAction.abort "Please enter a Base URL and API Key")
      ∧ (baseUrl ≠ "" → apiKey ≠ "" → ep.hasPromptId = true → resourceId = "" →
        handleSubmit baseUrl apiKey ep resourceId body
          = SubmitAction.abort "Please enter a resource ID")
      ∧ (baseUrl ≠ "" → apiKey ≠ "" → (ep.hasPromptId = true → resourceId ≠ "") →
         ep.hasBody = true → body = "" →
        handleSubmit baseUrl apiKey ep resourceId body
          = SubmitAction.abort "Please enter a request body")
      ∧ (baseUrl ≠ "" → apiKey ≠ "" → (ep.hasPromptId = true → resourceId ≠ "") →
         (ep.hasBody = true → body ≠ "") →
        handleSubmit baseUrl apiKey ep resourceId body
          = SubmitAction.send (buildUrl baseUrl ep resourceId) ep.method
              (if ep.hasBody then some body else none)) := by
  intro baseUrl apiKey resourceId body ep
  refine ⟨?_, ?_, ?_, ?_⟩
  · intro h
    rcases h with h | h <;> simp [handleSubmit, validateSubmit, h]
  · intro h1 h2 hp hr
    simp [handleSubmit, validateSubmit, h1, h2, hp, hr]
  · intro h1 h2 hid hb hbody
    cases hp : ep.hasPromptId with
    | false => simp [handleSubmit, validateSubmit, h1, h2, hp, hb, hbody]
    | true => simp [handleSubmit, validateSubmit, h1, h2, hp, hid hp, hb, hbody]
  · intro h1 h2 hid hbody
    cases hp : ep.hasPromptId with
    | false =>
      cases hb : ep.hasBody with
      | false => simp [handleSubmit, validateSubmit, h1, h2, hp, hb]
      | true => simp [handleSubmit, validateSubmit, h1, h2, hp, hb, hbody hb]
    | true =>
      cases hb : ep.hasBody with
      | false => simp [handleSubmit, validateSubmit, h1, h2, hp, hid hp, hb]
      | true => simp [handleSubmit, validateSubmit, h1, h2, hp, hid hp, hb, hbody hb]

/-- C7 witness: a submission with an empty base URL aborts with the first
check's error string. -/
theorem c7_validation_order_witness :
    handleSubmit "" "k" ⟨"e", "E", "GET", "/p", "d", false, false, none⟩ "i" "b"
      = SubmitAction.abort "Please enter a Base URL and API Key" :=
  (c7_validation_order "" "k" "i" "b" ⟨"e", "E", "GET", "/p", "d", false, false, none⟩).1
    (Or.inl rfl)

/-- C8.  The redacted-key log line for the key "sk-abcdefghij" is
"Authorization: Bearer sk-abc...ghij": the first six characters of the key,
an ellipsis, and its last four characters, and the full key does not occur
in the line as a contiguous substring. -/
theorem c8_redacted_key :
    redactedKeyLog "sk-abcdefghij" = "Authorization: Bearer sk-abc...ghij"
    ∧ containsSubstring (redactedKeyLog "sk-abcdefghij") "sk-abcdefghij" = false
    ∧ jsSliceTake "sk-abcdefghij" 6 = "sk-abc"
    ∧ jsSliceLast "sk-abcdefghij" 4 = "ghij"
    ∧ List.isPrefixOf ("sk-abc").data ("sk-abcdefghij").data = true
    ∧ List.isSuffixOf ("ghij").data ("sk-abcdefghij").data = true := by
  exact ⟨rfl, rfl, rfl, rfl, rfl, rfl⟩

/-- C9.  The image-analysis endpoint: a malformed payload or a missing or
empty image yields an early 400 `{error}` response with no upstream call; a
thrown upstream fetch or a non-2xx upstream status yields the 500 `{error}`
response; a 2xx upstream response with a well-formed chat-completion body
yields `{message, analyzedImage: {image, description}}` echoing the
submitted image string. -/
theorem c9_analyze_image :
    analyzePrepare none
      = PrepareResult.respond ⟨400, Json.obj [("error", Json.str "Invalid JSON in request body")]⟩
    ∧ analyzePrepare (some none)
      = PrepareResult.respond ⟨400, Json.obj [("error", Json.str "Invalid input: image data is required")]⟩
    ∧ analyzePrepare (some (some ""))
      = PrepareResult.respond ⟨400, Json.obj [("error", Json.str "Invalid input: image data is required")]⟩
    ∧ (∀ img : String,
        analyzeFinish img AnalyzeOutcome.threw
          = ⟨500, Json.obj [("error", Json.str "Failed to analyze image")]⟩)
    ∧ (∀ (img : String) (st : Nat) (ch : Option (List String)),
        responseOk st = false →
        analyzeFinish img (AnalyzeOutcome.completed st ch)
          = ⟨500, Json.obj [("error", Json.str "Failed to analyze image")]⟩)
    ∧ (∀ (img c : String) (st : Nat) (rest : List String),
        responseOk st = true →
        analyzeFinish img (AnalyzeOutcome.completed st (some (c :: rest)))
          = ⟨200, Json.obj
              [("message", Json.str "Image analyzed successfully"),
               ("analyzedImage", Json.obj [("image", Json.str img),
                                           ("description", Json.str c)])]⟩) := by
  refine ⟨rfl, rfl, rfl, fun img => rfl, ?_, ?_⟩
  · intro img st ch h
    simp [analyzeFinish, analyzeError, h]
  · intro img c st rest h
    simp [analyzeFinish, h]

/-- C9 witness: a 200 upstream response with one choice yields the success
shape echoing the submitted image. -/
theorem c9_analyze_image_witness :
    analyzeFinish "img64" (AnalyzeOutcome.completed 200 (some ["a cat"]))
      = ⟨200, Json.obj
          [("message", Json.str "Image analyzed successfully"),
           ("analyzedImage", Json.obj [("image", Json.str "img64"),
                                       ("description", Json.str "a cat")])]⟩ :=
  c9_analyze_image.2.2.2.2.2 "img64" "a cat" 200 [] rfl

end PromptForge
